import Mathlib

/-!
Shallow embedding of the ytdlpllm command-generation shim
(src/ytdlpllm/main.py) and proofs about its confirmation loop,
response validation and session bootstrap.

Modelling conventions:
* Decoded JSON values are represented by `JValue`; a model reply is a
  `ModelOutput` pairing the raw text with the result of `json.loads`
  (`none` exactly when the raw text is not valid JSON — the JSON grammar
  itself is Python stdlib, not code of this repository).
* Python exceptions surface as `Except PyErr`.
* The interactive loop `YTDLPLLM.run` is driven by two oracles: the list
  of successive `invoke_model` results and the list of successive
  `input()` lines.  Exhausting an oracle ends the run with a dedicated
  outcome (`modelScriptEnd` / `inputEOF`), mirroring a blocked network
  call resp. `EOFError` on closed stdin.
* The command executor (`subprocess.run(command, shell=True)`) is an
  external boundary: the run result records the exact values handed to
  it, in order, in `execs`.
* `Conv` is the conversation state held by the LLM interface.  The
  `add_*_prompt` mutators live in `ytdlpllm/llm_interface.py`, which is
  not part of the sources; they are modelled from the spec.
-/

namespace Ytdlpllm

inductive Role where
  | system
  | user
  | assistant
deriving DecidableEq, Repr

/-- Predicate used to count system messages. -/
def Role.isSystem : Role → Bool
  | .system => true
  | _ => false

structure Message where
  role : Role
  content : String
deriving DecidableEq, Repr

/-- Python values obtained from `json.loads`.  JSON numbers are modelled
as integers (no claim depends on floats). -/
inductive JValue where
  | jstr (s : String)
  | jnum (n : Int)
  | jbool (b : Bool)
  | jnull
  | jlist (xs : List JValue)
  | jobj (fields : List (String × JValue))

/-- Python exceptions raised by the code under scrutiny. -/
inductive PyErr where
  | jsonDecodeError -- json.JSONDecodeError raised by json.loads
  | keyError        -- KeyError
  | typeError       -- TypeError
deriving DecidableEq, Repr

/-- Dictionary lookup for a decoded JSON object.  `json.loads` keeps the
last occurrence of a duplicated key, hence `getLast?`. -/
def jlookup (fields : List (String × JValue)) (key : String) : Option JValue :=
  ((fields.filter (fun p => p.1 == key)).getLast?).map (fun p => p.2)

/-- Python membership test `key in v` for a decoded JSON value:
key lookup on dicts, element equality on lists, substring test on
strings, `TypeError` on non-container values. -/
def pyIn (key : String) (v : JValue) : Except PyErr Bool :=
  match v with
  | .jobj fields => .ok (jlookup fields key).isSome
  | .jlist xs => .ok (xs.any (fun x => match x with | .jstr s => s == key | _ => false))
  | .jstr s => .ok (2 ≤ (s.splitOn key).length)
  | _ => .error .typeError

/-- Python subscript `v[key]` with a string key: lookup (raising
`KeyError` when absent) on dicts, `TypeError` on everything else. -/
def pyGet (v : JValue) (key : String) : Except PyErr JValue :=
  match v with
  | .jobj fields =>
    match jlookup fields key with
    | some x => .ok x
    | none => .error .keyError
  | _ => .error .typeError

/-- Python `str.upper` as used on the confirmation line (the tokens
compared are ASCII, where `Char.toUpper` agrees with Python). -/
def pyUpper (s : String) : String :=
  ⟨s.data.map Char.toUpper⟩

/-- Python equality test `v == ""`: true exactly for the empty string. -/
def pyEqEmptyStr : JValue → Bool
  | .jstr s => s == ""
  | _ => false

mutual
/-- Python `repr` of a decoded JSON value, as produced inside f-strings
for non-string values. -/
def pyRepr : JValue → String
  | .jstr s => "\x27" ++ s ++ "\x27"
  | .jnum n => toString n
  | .jbool b => if b then "True" else "False"
  | .jnull => "None"
  | .jlist xs => "[" ++ String.intercalate ", " (pyReprList xs) ++ "]"
  | .jobj fs => "\x7b" ++ String.intercalate ", " (pyReprFields fs) ++ "\x7d"

def pyReprList : List JValue → List String
  | [] => []
  | x :: xs => pyRepr x :: pyReprList xs

def pyReprFields : List (String × JValue) → List String
  | [] => []
  | (k, v) :: fs => ("\x27" ++ k ++ "\x27: " ++ pyRepr v) :: pyReprFields fs
end

/-- Python `str` of a decoded JSON value, as used by `print(f"{x}")`. -/
def pyStr : JValue → String
  | .jstr s => s
  | v => pyRepr v

/-- One raw `invoke_model` reply together with its `json.loads` result
(`none` iff the raw text is not valid JSON). -/
structure ModelOutput where
  raw : String
  decoded : Option JValue

/-- Conversation state: the ordered role-tagged message log held by the
LLM interface. -/
structure Conv where
  msgs : List Message

/-- Modelled from the spec: `add_system_prompt` of the LLM interface
(ytdlpllm/llm_interface.py, absent from src/) appends a system message
to the conversation state (spec §4.1). -/
def add_system_prompt (c : Conv) (text : String) : Conv :=
  ⟨c.msgs ++ [⟨.system, text⟩]⟩

/-- Modelled from the spec: `add_user_prompt` appends a user message
(spec §4.1). -/
def add_user_prompt (c : Conv) (text : String) : Conv :=
  ⟨c.msgs ++ [⟨.user, text⟩]⟩

/-- Modelled from the spec: `add_assistant_prompt` appends an assistant
message (spec §4.1). -/
def add_assistant_prompt (c : Conv) (text : String) : Conv :=
  ⟨c.msgs ++ [⟨.assistant, text⟩]⟩

/-- Embedding of `YTDLPLLM.generate_response` (main.py lines 240–261): decode the raw
reply as JSON, raising `json.JSONDecodeError` on invalid JSON, then check
the keys "explanation" and "command" in that order with Python `in`,
raising `KeyError` when one is missing; return the raw string and the
decoded object. -/
def generate_response (out : ModelOutput) : Except PyErr (String × JValue) :=
  match out.decoded with
  | none => .error .jsonDecodeError
  | some json_output =>
    match pyIn "explanation" json_output with
    | .error e => .error e
    | .ok b1 =>
      if !b1 then .error .keyError
      else
        match pyIn "command" json_output with
        | .error e => .error e
        | .ok b2 =>
          if !b2 then .error .keyError
          else .ok (out.raw, json_output)

/-- The explanation transform of `YTDLPLLM.chat` (main.py lines 200–201):
`if type(explanation) == list: explanation = "\n- ".join(explanation)`.
Python `str.join` raises `TypeError` when an element is not a string. -/
def joinExplanation : JValue → Except PyErr JValue
  | .jlist xs =>
    match asStrings xs with
    | some ss => .ok (.jstr (String.intercalate "\n- " ss))
    | none => .error .typeError
  | v => .ok v
where
  asStrings : List JValue → Option (List String)
    | [] => some []
    | .jstr s :: rest => (asStrings rest).map (fun ss => s :: ss)
    | _ :: _ => none

/-- Embedding of `YTDLPLLM.chat` (main.py lines 179–203): append the user prompt,
invoke the model (the reply is the `out` argument) and validate it via
`generate_response`, append the raw reply as an assistant message,
extract both fields and normalize the explanation.  Returns the updated
conversation and either the `(explanation, command)` pair or the Python
exception that propagates. -/
def chat (c : Conv) (command : String) (out : ModelOutput) :
    Conv × Except PyErr (JValue × JValue) :=
  let c1 := add_user_prompt c command
  match generate_response out with
  | .error e => (c1, .error e)
  | .ok (raw_response, parsed_response) =>
    let c2 := add_assistant_prompt c1 raw_response
    match pyGet parsed_response "explanation" with
    | .error e => (c2, .error e)
    | .ok explanation =>
      match pyGet parsed_response "command" with
      | .error e => (c2, .error e)
      | .ok cmd =>
        match joinExplanation explanation with
        | .error e => (c2, .error e)
        | .ok explanation2 => (c2, .ok (explanation2, cmd))

/-- Final disposition of one `YTDLPLLM.run` invocation. -/
inductive Outcome where
  | executed            -- subprocess.run was reached, then break
  | refused             -- the empty-command refusal branch, then break
  | userAbort           -- a decline token, then break
  | errored (e : PyErr) -- an uncaught Python exception ended the run
  | modelScriptEnd      -- the invoke_model oracle is exhausted
  | inputEOF            -- the input() oracle is exhausted (EOFError)
deriving DecidableEq, Repr

/-- Observable result of a run: final conversation, the values handed to
the command executor in order, how many times the user was prompted for
confirmation, the lines printed to stdout, and the final disposition. -/
structure RunResult where
  conv : Conv
  execs : List JValue
  prompts : Nat
  printed : List String
  outcome : Outcome

/-- Embedding of `YTDLPLLM.run` (main.py lines 205–238), as a loop over the two
oracles.  Each iteration consumes one model output; the confirmation
`input()` consumes one input line (the prompt counter is incremented
when `input()` is reached, before reading).  Python `str.upper` is
modelled by `String.toUpper` (the tokens compared are ASCII). -/
def runLoop (c : Conv) (outs : List ModelOutput) (ins : List String)
    (execs : List JValue) (prompts : Nat) (printed : List String)
    (command : String) : RunResult :=
  match outs with
  | [] => ⟨c, execs, prompts, printed, .modelScriptEnd⟩
  | out :: restOuts =>
    match chat c command out with
    | (c1, .error e) => ⟨c1, execs, prompts, printed, .errored e⟩
    | (c1, .ok (explanation, cmd)) =>
      if pyEqEmptyStr cmd then
        ⟨c1, execs, prompts,
          printed ++ ["Unable. Please keep requests specific to yt-dlp"], .refused⟩
      else
        let printed1 := printed ++ [pyStr explanation, "\n\t" ++ pyStr cmd ++ "\n"]
        let prompts1 := prompts + 1
        match ins with
        | [] => ⟨c1, execs, prompts1, printed1, .inputEOF⟩
        | confirmation :: restIns =>
          if pyUpper confirmation == "N" || pyUpper confirmation == "NO" ||
              pyUpper confirmation == "Q" || pyUpper confirmation == "QUIT" then
            ⟨c1, execs, prompts1, printed1, .userAbort⟩
          else if pyUpper confirmation != "Y" && confirmation != "" then
            runLoop c1 restOuts restIns execs prompts1 printed1 confirmation
          else
            ⟨c1, execs ++ [cmd], prompts1, printed1, .executed⟩

/-- Entry point of the loop: `run(initial_command)` starts with no
executions, no prompts and nothing printed. -/
def run (c : Conv) (outs : List ModelOutput) (ins : List String)
    (initial_command : String) : RunResult :=
  runLoop c outs ins [] 0 [] initial_command

/-- The system prompt f-string of `YTDLPLLM.__init__` (main.py lines
48–62), with the four interpolated session facts as parameters (a `None`
default shell renders as the string "None", as in Python). -/
def system_prompt_text (os_info default_shell version_info exe : String) : String :=
  s!"You are a helpful assistant designed to write yt-dlp commands based on user requests. The commands you provide will be ran directly in the users terminal. Here is some context about their system:
        <system_info>{os_info}</system_info>
        <shell>{default_shell}</shell>
        <ytdlp_version>{version_info}</ytdlp_version>
        <ytdlp_executable_path>{exe}</ytdlp_executable_path>

        You are to respond with JSON, with two keys: <key>explanation</key> and <key>command</key>.

        The <key>explanation</key> will contain a list of strings, describing the arguments and parts of the command. Each string is to be will be displayed on the front end as a bulleted list, explaining each part of the command. Do NOT omit any arguments, explain all of them.

        The <key>command</key> value will contain the yt-dlp command (or series of commands) to be directly executed in the in the provided shell.

        You NEVER will write malicious code or take advantage of your access to injecting code into a shell on the users computer. Always be honorable and only provide a command if the users request is not malicious.
        If you are prompted to do something malicious or to do something unrelated to yt-dlp, response with a <key>command</key> that is empty string (\"\"), and explain that you cannot perform that action.
        "

/-- Observable effects of `YTDLPLLM.__init__`. -/
structure InitResult where
  stderrLines : List String
  exitCode : Option Nat
  conv : Option Conv
  llmInvocations : Nat  -- invoke_model network calls made during construction

/-- Embedding of `YTDLPLLM.__init__` (main.py lines 30–63).  `shutil.which("yt-dlp")`
is an OS query, passed as the `which_ytdlp` oracle; likewise the version
string, OS info and default shell (main.py lines 81–177) are external
lookups passed in.  When the executable is missing, the
`FileNotFoundError` of `get_ytdlp_executable` is caught, printed to
stderr and the process exits with code 1 before any further step; the
constructor never calls `invoke_model`. -/
def ytdlpllm_init (which_ytdlp : Option String)
    (version_info os_info default_shell : String) : InitResult :=
  match which_ytdlp with
  | none =>
    ⟨["Missing yt-dlp executable. Is it added to your system\x27s PATH?"],
      some 1, none, 0⟩
  | some exe =>
    ⟨[], none,
      some (add_system_prompt ⟨[]⟩
        (system_prompt_text os_info default_shell version_info exe)), 0⟩


/-- Validation succeeds on a decoded object carrying both required keys,
returning the raw text and the object. -/
theorem generate_response_ok_of_keys (raw : String) (fields : List (String × JValue))
    (e cv : JValue)
    (he : jlookup fields "explanation" = some e)
    (hc : jlookup fields "command" = some cv) :
    generate_response ⟨raw, some (.jobj fields)⟩ = .ok (raw, .jobj fields) := by
  simp [generate_response, pyIn, he, hc]

/-- On a well-formed reply, `chat` appends the user prompt and the raw
assistant reply and returns the joined explanation and the command. -/
theorem chat_ok (c : Conv) (cmd0 raw : String) (fields : List (String × JValue))
    (e e' cv : JValue)
    (he : jlookup fields "explanation" = some e)
    (hc : jlookup fields "command" = some cv)
    (hje : joinExplanation e = .ok e') :
    chat c cmd0 ⟨raw, some (.jobj fields)⟩ =
      (⟨c.msgs ++ [⟨.user, cmd0⟩, ⟨.assistant, raw⟩]⟩, .ok (e', cv)) := by
  simp [chat, generate_response_ok_of_keys raw fields e cv he hc, pyGet, he, hc, hje,
    add_user_prompt, add_assistant_prompt]

/-- When validation fails, `chat` has appended only the user prompt and
propagates the exception. -/
theorem chat_err (c : Conv) (cmd0 : String) (out : ModelOutput) (err : PyErr)
    (h : generate_response out = .error err) :
    chat c cmd0 out = (add_user_prompt c cmd0, .error err) := by
  simp [chat, h]

/-- A successful validation always returns the raw reply text as its
first component. -/
theorem generate_response_ok_raw (out : ModelOutput) (p : String × JValue)
    (h : generate_response out = .ok p) : p.1 = out.raw := by
  obtain ⟨raw, dec⟩ := out
  cases dec with
  | none => simp [generate_response] at h
  | some j =>
    cases hpi : pyIn "explanation" j with
    | error e => simp [generate_response, hpi] at h
    | ok b1 =>
      cases b1 with
      | false => simp [generate_response, hpi] at h
      | true =>
        cases hpi2 : pyIn "command" j with
        | error e => simp [generate_response, hpi, hpi2] at h
        | ok b2 =>
          cases b2 with
          | false => simp [generate_response, hpi, hpi2] at h
          | true =>
            simp [generate_response, hpi, hpi2] at h
            simp [← h]

/-- `chat` extends the conversation with the user prompt, and with the
raw assistant reply as well whenever validation got far enough. -/
theorem chat_conv_or (c : Conv) (cmd0 : String) (out : ModelOutput) :
    (chat c cmd0 out).1.msgs = c.msgs ++ [⟨.user, cmd0⟩] ∨
    (chat c cmd0 out).1.msgs = c.msgs ++ [⟨.user, cmd0⟩, ⟨.assistant, out.raw⟩] := by
  cases hg : generate_response out with
  | error e => left; simp [chat_err c cmd0 out e hg, add_user_prompt]
  | ok p =>
    right
    have hr : p.1 = out.raw := generate_response_ok_raw out p hg
    obtain ⟨raw, j⟩ := p
    simp only at hr
    subst hr
    cases hge : pyGet j "explanation" with
    | error e => simp [chat, hg, hge, add_user_prompt, add_assistant_prompt]
    | ok ex =>
      cases hgc : pyGet j "command" with
      | error e => simp [chat, hg, hge, hgc, add_user_prompt, add_assistant_prompt]
      | ok cm =>
        cases hj : joinExplanation ex <;>
          simp [chat, hg, hge, hgc, hj, add_user_prompt, add_assistant_prompt]

/-- One loop iteration either stops with the conversation produced by
`chat`, or continues as a recursive run from that conversation. -/
theorem runLoop_cons_conv (c : Conv) (o : ModelOutput) (outs : List ModelOutput)
    (ins : List String) (execs : List JValue) (prompts : Nat) (printed : List String)
    (cmd0 : String) :
    (runLoop c (o :: outs) ins execs prompts printed cmd0).conv = (chat c cmd0 o).1 ∨
    ∃ ins2 execs2 prompts2 printed2 conf,
      runLoop c (o :: outs) ins execs prompts printed cmd0 =
        runLoop (chat c cmd0 o).1 outs ins2 execs2 prompts2 printed2 conf := by
  rcases hq : chat c cmd0 o with ⟨c1, res⟩
  cases res with
  | error e => left; simp [runLoop, hq]
  | ok p =>
    obtain ⟨ex, cm⟩ := p
    by_cases hcm : pyEqEmptyStr cm
    · left; simp [runLoop, hq, hcm]
    · cases ins with
      | nil => left; simp [runLoop, hq, hcm]
      | cons conf ins2 =>
        by_cases hab : (pyUpper conf == "N" || pyUpper conf == "NO" ||
            pyUpper conf == "Q" || pyUpper conf == "QUIT") = true
        · left; simp [runLoop, hq, hcm, hab]
        · by_cases href : (pyUpper conf != "Y" && conf != "") = true
          · right
            refine ⟨ins2, execs, prompts + 1,
              printed ++ [pyStr ex, "\n\t" ++ pyStr cm ++ "\n"], conf, ?_⟩
            simp [runLoop, hq, hcm, hab, href]
          · left; simp [runLoop, hq, hcm, hab, href]

/-- The conversation is append-only across a run, and no loop operation
ever appends a system message. -/
theorem runLoop_conv_extends (outs : List ModelOutput) :
    ∀ (c : Conv) (ins : List String) (execs : List JValue) (prompts : Nat)
      (printed : List String) (cmd0 : String),
      ∃ t, (runLoop c outs ins execs prompts printed cmd0).conv.msgs = c.msgs ++ t ∧
        ∀ m ∈ t, m.role ≠ .system := by
  induction outs with
  | nil =>
    intro c ins execs prompts printed cmd0
    exact ⟨[], by simp [runLoop], by simp⟩
  | cons o outs ih =>
    intro c ins execs prompts printed cmd0
    have hch := chat_conv_or c cmd0 o
    rcases runLoop_cons_conv c o outs ins execs prompts printed cmd0 with hcc | hcc
    · rcases hch with hch | hch
      · exact ⟨[⟨.user, cmd0⟩], by rw [hcc, hch], by simp⟩
      · exact ⟨[⟨.user, cmd0⟩, ⟨.assistant, o.raw⟩], by rw [hcc, hch], by simp⟩
    · obtain ⟨ins2, execs2, prompts2, printed2, conf, heq⟩ := hcc
      obtain ⟨t1, ht1, hs1⟩ := ih (chat c cmd0 o).1 ins2 execs2 prompts2 printed2 conf
      rcases hch with hch | hch
      · refine ⟨[⟨.user, cmd0⟩] ++ t1, ?_, ?_⟩
        · rw [heq, ht1, hch]; simp
        · intro m hm
          rcases List.mem_append.mp hm with hm | hm
          · simp at hm; simp [hm]
          · exact hs1 m hm
      · refine ⟨[⟨.user, cmd0⟩, ⟨.assistant, o.raw⟩] ++ t1, ?_, ?_⟩
        · rw [heq, ht1, hch]; simp
        · intro m hm
          rcases List.mem_append.mp hm with hm | hm
          · simp at hm
            rcases hm with hm | hm <;> simp [hm]
          · exact hs1 m hm

/-- A run whose model oracle is nonempty records the current input text
as the next user message, right after the prior conversation. -/
theorem runLoop_cons_user (c : Conv) (o : ModelOutput) (outs : List ModelOutput)
    (ins : List String) (execs : List JValue) (prompts : Nat) (printed : List String)
    (cmd0 : String) :
    ∃ t, (runLoop c (o :: outs) ins execs prompts printed cmd0).conv.msgs =
      c.msgs ++ ⟨.user, cmd0⟩ :: t := by
  have hch := chat_conv_or c cmd0 o
  rcases runLoop_cons_conv c o outs ins execs prompts printed cmd0 with hcc | hcc
  · rcases hch with hch | hch
    · exact ⟨[], by rw [hcc, hch]⟩
    · exact ⟨[⟨.assistant, o.raw⟩], by rw [hcc, hch]⟩
  · obtain ⟨ins2, execs2, prompts2, printed2, conf, heq⟩ := hcc
    obtain ⟨t1, ht1, _⟩ := runLoop_conv_extends outs (chat c cmd0 o).1
      ins2 execs2 prompts2 printed2 conf
    rcases hch with hch | hch
    · exact ⟨t1, by rw [heq, ht1, hch]; simp⟩
    · exact ⟨⟨.assistant, o.raw⟩ :: t1, by rw [heq, ht1, hch]; simp⟩

/-- A list of strings injected into `JValue` is read back unchanged. -/
theorem asStrings_map_jstr (ss : List String) :
    joinExplanation.asStrings (ss.map .jstr) = some ss := by
  induction ss with
  | nil => rfl
  | cons s rest ih => simp [joinExplanation.asStrings, ih]

/-- Claim C1: for every well-formed model reply with a non-empty command,
running the confirmation loop and answering the confirmation prompt with
"Y" (case-insensitively, via upper) or with empty input results in
exactly one execution call, invoked with exactly that command text, after
which the loop terminates with no further executions. -/
theorem c1_confirm_executes_exactly_once (c : Conv) (raw cmd conf input0 : String)
    (fields : List (String × JValue)) (e e' : JValue)
    (outs : List ModelOutput) (ins : List String)
    (execs : List JValue) (prompts : Nat) (printed : List String)
    (he : jlookup fields "explanation" = some e)
    (hje : joinExplanation e = .ok e')
    (hc : jlookup fields "command" = some (.jstr cmd))
    (hcne : cmd ≠ "")
    (hconf : pyUpper conf = "Y" ∨ conf = "") :
    (runLoop c (⟨raw, some (.jobj fields)⟩ :: outs) (conf :: ins)
        execs prompts printed input0).execs = execs ++ [JValue.jstr cmd] ∧
    (runLoop c (⟨raw, some (.jobj fields)⟩ :: outs) (conf :: ins)
        execs prompts printed input0).outcome = .executed := by
  have hch := chat_ok c input0 raw fields e e' (.jstr cmd) he hc hje
  have h0 : pyUpper "" = "" := rfl
  rcases hconf with hconf | hconf
  · simp [runLoop, hch, pyEqEmptyStr, hcne, hconf]
  · subst hconf
    simp [runLoop, hch, pyEqEmptyStr, hcne, h0]

/-- Witness for C1, on the reply and confirmation of the repository test
suite. -/
theorem c1_confirm_executes_exactly_once_witness :
    (runLoop ⟨[]⟩
        [⟨"RAW", some (.jobj [("explanation", .jstr "Test Explanation"),
          ("command", .jstr "yt-dlp -i input.mp4 output.mp4")])⟩]
        ["Y"] [] 0 [] "Convert video format").execs
      = [JValue.jstr "yt-dlp -i input.mp4 output.mp4"] ∧
    (runLoop ⟨[]⟩
        [⟨"RAW", some (.jobj [("explanation", .jstr "Test Explanation"),
          ("command", .jstr "yt-dlp -i input.mp4 output.mp4")])⟩]
        ["Y"] [] 0 [] "Convert video format").outcome = .executed := by
  have h := c1_confirm_executes_exactly_once ⟨[]⟩ "RAW" "yt-dlp -i input.mp4 output.mp4"
    "Y" "Convert video format"
    [("explanation", .jstr "Test Explanation"),
      ("command", .jstr "yt-dlp -i input.mp4 output.mp4")]
    (.jstr "Test Explanation") (.jstr "Test Explanation") [] [] [] 0 []
    (by rfl) (by rfl) (by rfl) (by decide) (Or.inl (by rfl))
  simpa using h

/-- Claim C2: for every well-formed model reply with a non-empty command,
if the confirmation input upper-cases to one of the abort tokens "N",
"NO", "Q", "QUIT", the loop terminates and the command executor is never
invoked. -/
theorem c2_decline_token_never_executes (c : Conv) (raw cmd conf input0 : String)
    (fields : List (String × JValue)) (e e' : JValue)
    (outs : List ModelOutput) (ins : List String)
    (execs : List JValue) (prompts : Nat) (printed : List String)
    (he : jlookup fields "explanation" = some e)
    (hje : joinExplanation e = .ok e')
    (hc : jlookup fields "command" = some (.jstr cmd))
    (hcne : cmd ≠ "")
    (habort : pyUpper conf = "N" ∨ pyUpper conf = "NO" ∨
      pyUpper conf = "Q" ∨ pyUpper conf = "QUIT") :
    (runLoop c (⟨raw, some (.jobj fields)⟩ :: outs) (conf :: ins)
        execs prompts printed input0).execs = execs ∧
    (runLoop c (⟨raw, some (.jobj fields)⟩ :: outs) (conf :: ins)
        execs prompts printed input0).outcome = .userAbort := by
  have hch := chat_ok c input0 raw fields e e' (.jstr cmd) he hc hje
  rcases habort with h | h | h | h <;>
    simp [runLoop, hch, pyEqEmptyStr, hcne, h]

/-- Witness for C2: a lowercase decline token "no" aborts with zero
executions. -/
theorem c2_decline_token_never_executes_witness :
    (runLoop ⟨[]⟩
        [⟨"RAW", some (.jobj [("explanation", .jstr "Test Explanation"),
          ("command", .jstr "yt-dlp -i input.mp4 output.mp4")])⟩]
        ["no"] [] 0 [] "Convert video format").execs = [] ∧
    (runLoop ⟨[]⟩
        [⟨"RAW", some (.jobj [("explanation", .jstr "Test Explanation"),
          ("command", .jstr "yt-dlp -i input.mp4 output.mp4")])⟩]
        ["no"] [] 0 [] "Convert video format").outcome = .userAbort := by
  have h := c2_decline_token_never_executes ⟨[]⟩ "RAW" "yt-dlp -i input.mp4 output.mp4"
    "no" "Convert video format"
    [("explanation", .jstr "Test Explanation"),
      ("command", .jstr "yt-dlp -i input.mp4 output.mp4")]
    (.jstr "Test Explanation") (.jstr "Test Explanation") [] [] [] 0 []
    (by rfl) (by rfl) (by rfl) (by decide) (Or.inr (Or.inl (by rfl)))
  simpa using h

/-- Claim C3: for every model reply whose command field equals the empty
string, the confirmation loop terminates immediately after printing the
refusal message; the user is never prompted (the prompt counter and the
input oracle are untouched) and the command executor is never invoked. -/
theorem c3_empty_command_refusal (c : Conv) (raw input0 : String)
    (fields : List (String × JValue)) (e e' : JValue)
    (outs : List ModelOutput) (ins : List String)
    (execs : List JValue) (prompts : Nat) (printed : List String)
    (he : jlookup fields "explanation" = some e)
    (hje : joinExplanation e = .ok e')
    (hc : jlookup fields "command" = some (.jstr "")) :
    runLoop c (⟨raw, some (.jobj fields)⟩ :: outs) ins execs prompts printed input0
      = ⟨⟨c.msgs ++ [⟨.user, input0⟩, ⟨.assistant, raw⟩]⟩, execs, prompts,
          printed ++ ["Unable. Please keep requests specific to yt-dlp"], .refused⟩ := by
  have hch := chat_ok c input0 raw fields e e' (.jstr "") he hc hje
  simp [runLoop, hch, pyEqEmptyStr]

/-- Witness for C3: a refusal reply ends the run with no prompt, no
execution, and only the refusal line printed, even though an input line
was available. -/
theorem c3_empty_command_refusal_witness :
    runLoop ⟨[]⟩ [⟨"RAWR", some (.jobj [("explanation", .jstr "E"), ("command", .jstr "")])⟩]
        ["Y"] [] 0 [] "req"
      = ⟨⟨[⟨.user, "req"⟩, ⟨.assistant, "RAWR"⟩]⟩, [], 0,
          ["Unable. Please keep requests specific to yt-dlp"], .refused⟩ := by
  have h := c3_empty_command_refusal ⟨[]⟩ "RAWR" "req"
    [("explanation", .jstr "E"), ("command", .jstr "")]
    (.jstr "E") (.jstr "E") [] ["Y"] [] 0 [] (by rfl) (by rfl) (by rfl)
  simpa using h

/-- Counterexample to claim C4: for a reply whose command is the empty
string, the loop takes the refusal branch, yet the raw reply HAS been
appended to the conversation as an assistant message (`chat` appends it
before `run` inspects the command). -/
theorem c4_counterexample_assistant_appended_on_refusal :
    (run ⟨[]⟩ [⟨"RAW", some (.jobj [("explanation", .jstr "E"), ("command", .jstr "")])⟩]
        [] "req").outcome = .refused ∧
    Message.mk .assistant "RAW" ∈
      (run ⟨[]⟩ [⟨"RAW", some (.jobj [("explanation", .jstr "E"), ("command", .jstr "")])⟩]
        [] "req").conv.msgs := by
  refine ⟨rfl, ?_⟩
  show Message.mk .assistant "RAW" ∈ [⟨.user, "req"⟩, ⟨.assistant, "RAW"⟩]
  simp

/-- Claim C4 as amended: on each loop iteration, whenever the model reply
decodes to an object carrying both required keys, the raw reply is
appended to the conversation state as an assistant message — regardless
of whether its command field is empty; the empty-command refusal check
happens only after the append. -/
theorem c4_amended_assistant_always_appended (c : Conv) (cmd0 raw : String)
    (fields : List (String × JValue)) (e cv : JValue)
    (he : jlookup fields "explanation" = some e)
    (hc : jlookup fields "command" = some cv) :
    (chat c cmd0 ⟨raw, some (.jobj fields)⟩).1.msgs
      = c.msgs ++ [⟨.user, cmd0⟩, ⟨.assistant, raw⟩] := by
  cases hj : joinExplanation e <;>
    simp [chat, generate_response_ok_of_keys raw fields e cv he hc, pyGet, he, hc, hj,
      add_user_prompt, add_assistant_prompt]

/-- Witness for the amended C4, at a reply with an empty command. -/
theorem c4_amended_assistant_always_appended_witness :
    (chat ⟨[]⟩ "req" ⟨"RAW", some (.jobj [("explanation", .jstr "E"),
        ("command", .jstr "")])⟩).1.msgs
      = [⟨.user, "req"⟩, ⟨.assistant, "RAW"⟩] := by
  have h := c4_amended_assistant_always_appended ⟨[]⟩ "req" "RAW"
    [("explanation", .jstr "E"), ("command", .jstr "")]
    (.jstr "E") (.jstr "") (by rfl) (by rfl)
  simpa using h

/-- Claim C5: the validator raises a key error whenever the decoded JSON
object lacks "explanation" or lacks "command", raises a JSON decode error
whenever the raw text is not valid JSON, returns normally when both keys
are present, and on either error the run ends without the confirmation
prompt ever being reached. -/
theorem c5_validator_errors_and_success (raw : String) (fields : List (String × JValue)) :
    ((jlookup fields "explanation" = none ∨ jlookup fields "command" = none) →
      generate_response ⟨raw, some (.jobj fields)⟩ = .error .keyError)
    ∧ generate_response ⟨raw, none⟩ = .error .jsonDecodeError
    ∧ (∀ e cv, jlookup fields "explanation" = some e →
        jlookup fields "command" = some cv →
        generate_response ⟨raw, some (.jobj fields)⟩ = .ok (raw, .jobj fields))
    ∧ (∀ (c : Conv) (out : ModelOutput) (outs : List ModelOutput) (ins : List String)
        (execs : List JValue) (prompts : Nat) (printed : List String)
        (cmd0 : String) (err : PyErr),
        generate_response out = .error err →
        (runLoop c (out :: outs) ins execs prompts printed cmd0).prompts = prompts ∧
        (runLoop c (out :: outs) ins execs prompts printed cmd0).outcome = .errored err) := by
  refine ⟨?_, rfl, ?_, ?_⟩
  · intro h
    rcases h with h | h
    · simp [generate_response, pyIn, h]
    · cases hE : jlookup fields "explanation" <;> simp [generate_response, pyIn, h, hE]
  · intro e cv he hc
    exact generate_response_ok_of_keys raw fields e cv he hc
  · intro c out outs ins execs prompts printed cmd0 err hg
    simp [runLoop, chat_err c cmd0 out err hg]

/-- Witness for C5: a missing "command" key, invalid JSON, a complete
reply, and an errored run that never prompts. -/
theorem c5_validator_errors_and_success_witness :
    generate_response ⟨"x", some (.jobj [("explanation", .jstr "E")])⟩ = .error .keyError ∧
    generate_response ⟨"x", none⟩ = .error .jsonDecodeError ∧
    generate_response ⟨"x", some (.jobj [("explanation", .jstr "E"), ("command", .jstr "c")])⟩
      = .ok ("x", .jobj [("explanation", .jstr "E"), ("command", .jstr "c")]) ∧
    (runLoop ⟨[]⟩ [⟨"x", none⟩] ["Y"] [] 0 [] "req").prompts = 0 ∧
    (runLoop ⟨[]⟩ [⟨"x", none⟩] ["Y"] [] 0 [] "req").outcome = .errored .jsonDecodeError := by
  refine ⟨(c5_validator_errors_and_success "x" [("explanation", .jstr "E")]).1
      (Or.inr (by rfl)),
    (c5_validator_errors_and_success "x" []).2.1,
    (c5_validator_errors_and_success "x"
      [("explanation", .jstr "E"), ("command", .jstr "c")]).2.2.1
      (.jstr "E") (.jstr "c") (by rfl) (by rfl),
    ((c5_validator_errors_and_success "x" []).2.2.2
      ⟨[]⟩ ⟨"x", none⟩ [] ["Y"] [] 0 [] "req" .jsonDecodeError (by rfl)).1,
    ((c5_validator_errors_and_success "x" []).2.2.2
      ⟨[]⟩ ⟨"x", none⟩ [] ["Y"] [] 0 [] "req" .jsonDecodeError (by rfl)).2⟩

/-- Claim C6: an explanation given as a sequence of strings is joined
into the single string interleaving the elements, in order, with the
"\n- " separator; an explanation given as a single string passes through
unchanged. -/
theorem c6_explanation_join_and_identity (ss : List String) (s : String) :
    joinExplanation (.jlist (ss.map .jstr)) = .ok (.jstr (String.intercalate "\n- " ss))
    ∧ joinExplanation (.jstr s) = .ok (.jstr s) := by
  constructor
  · simp [joinExplanation, asStrings_map_jstr]
  · rfl

/-- Claim C7: when the yt-dlp executable cannot be resolved on the search
path, session construction prints a diagnostic to stderr and terminates
the process with exit code 1, with no model-client invocation and no
session state created. -/
theorem c7_missing_executable_exit_one (version_info os_info default_shell : String) :
    ytdlpllm_init none version_info os_info default_shell =
      ⟨["Missing yt-dlp executable. Is it added to your system\x27s PATH?"],
        some 1, none, 0⟩ := rfl

/-- Claim C8: a confirmation input that is non-empty, not "Y" (after
upper) and not an abort token is fed back as the next input of another
model invocation, and the conversation then carries the previous
assistant reply followed by that text as the next user message (history
is append-only across refinement rounds). -/
theorem c8_refinement_reinvokes_model (c : Conv) (raw cmd conf input0 : String)
    (fields : List (String × JValue)) (e e' : JValue)
    (o2 : ModelOutput) (outs : List ModelOutput) (ins : List String)
    (execs : List JValue) (prompts : Nat) (printed : List String)
    (he : jlookup fields "explanation" = some e)
    (hje : joinExplanation e = .ok e')
    (hc : jlookup fields "command" = some (.jstr cmd))
    (hcne : cmd ≠ "")
    (hrefine : pyUpper conf ≠ "Y" ∧ conf ≠ "" ∧ pyUpper conf ≠ "N" ∧
      pyUpper conf ≠ "NO" ∧ pyUpper conf ≠ "Q" ∧ pyUpper conf ≠ "QUIT") :
    runLoop c (⟨raw, some (.jobj fields)⟩ :: o2 :: outs) (conf :: ins)
        execs prompts printed input0
      = runLoop ⟨c.msgs ++ [⟨.user, input0⟩, ⟨.assistant, raw⟩]⟩ (o2 :: outs) ins
          execs (prompts + 1) (printed ++ [pyStr e', "\n\t" ++ cmd ++ "\n"]) conf
    ∧ ∃ t, (runLoop c (⟨raw, some (.jobj fields)⟩ :: o2 :: outs) (conf :: ins)
        execs prompts printed input0).conv.msgs
      = c.msgs ++ ⟨.user, input0⟩ :: ⟨.assistant, raw⟩ :: ⟨.user, conf⟩ :: t := by
  obtain ⟨h1, h2, h3, h4, h5, h6⟩ := hrefine
  have hch := chat_ok c input0 raw fields e e' (.jstr cmd) he hc hje
  have hstep : runLoop c (⟨raw, some (.jobj fields)⟩ :: o2 :: outs) (conf :: ins)
      execs prompts printed input0
      = runLoop ⟨c.msgs ++ [⟨.user, input0⟩, ⟨.assistant, raw⟩]⟩ (o2 :: outs) ins
          execs (prompts + 1) (printed ++ [pyStr e', "\n\t" ++ cmd ++ "\n"]) conf := by
    simp [runLoop, hch, pyEqEmptyStr, hcne, h1, h2, h3, h4, h5, h6, pyStr]
  refine ⟨hstep, ?_⟩
  obtain ⟨t, ht⟩ := runLoop_cons_user ⟨c.msgs ++ [⟨.user, input0⟩, ⟨.assistant, raw⟩]⟩
    o2 outs ins execs (prompts + 1) (printed ++ [pyStr e', "\n\t" ++ cmd ++ "\n"]) conf
  exact ⟨t, by rw [hstep, ht]; simp⟩

/-- Witness for C8: the scenario of spec §8 — refinement text
"make it mp3 instead" loops back into the model and lands in the history
as the next user message. -/
theorem c8_refinement_reinvokes_model_witness :
    runLoop ⟨[]⟩
        [⟨"R1", some (.jobj [("explanation", .jstr "E"), ("command", .jstr "c1")])⟩,
          ⟨"R2", some (.jobj [("explanation", .jstr "E2"), ("command", .jstr "c2")])⟩]
        ["make it mp3 instead", "Y"] [] 0 [] "req"
      = runLoop ⟨[⟨.user, "req"⟩, ⟨.assistant, "R1"⟩]⟩
          [⟨"R2", some (.jobj [("explanation", .jstr "E2"), ("command", .jstr "c2")])⟩]
          ["Y"] [] 1 ["E", "\n\tc1\n"] "make it mp3 instead" ∧
    Message.mk .user "make it mp3 instead" ∈
      (runLoop ⟨[]⟩
        [⟨"R1", some (.jobj [("explanation", .jstr "E"), ("command", .jstr "c1")])⟩,
          ⟨"R2", some (.jobj [("explanation", .jstr "E2"), ("command", .jstr "c2")])⟩]
        ["make it mp3 instead", "Y"] [] 0 [] "req").conv.msgs := by
  have h := c8_refinement_reinvokes_model ⟨[]⟩ "R1" "c1" "make it mp3 instead" "req"
    [("explanation", .jstr "E"), ("command", .jstr "c1")]
    (.jstr "E") (.jstr "E")
    ⟨"R2", some (.jobj [("explanation", .jstr "E2"), ("command", .jstr "c2")])⟩
    [] ["Y"] [] 0 []
    (by rfl) (by rfl) (by rfl) (by decide)
    ⟨by decide, by decide, by decide, by decide, by decide, by decide⟩
  constructor
  · simpa [pyStr] using h.1
  · obtain ⟨t, ht⟩ := h.2
    rw [ht]
    simp

/-- Claim C9: starting from the conversation produced at session
construction, any run keeps exactly one system message, and it stays
first in the message log: no loop operation adds another system message
or places any message before it. -/
theorem c9_single_system_message_first (path version_info os_info default_shell cmd0 : String)
    (outs : List ModelOutput) (ins : List String) (c0 : Conv)
    (h : (ytdlpllm_init (some path) version_info os_info default_shell).conv = some c0) :
    (run c0 outs ins cmd0).conv.msgs.head? =
      some ⟨.system, system_prompt_text os_info default_shell version_info path⟩ ∧
    ((run c0 outs ins cmd0).conv.msgs.filter (fun m => m.role.isSystem)).length = 1 := by
  have hc0 : c0 = ⟨[⟨.system, system_prompt_text os_info default_shell version_info path⟩]⟩ := by
    simp [ytdlpllm_init, add_system_prompt] at h
    exact h.symm
  subst hc0
  obtain ⟨t, ht, hs⟩ := runLoop_conv_extends outs
    ⟨[⟨.system, system_prompt_text os_info default_shell version_info path⟩]⟩ ins [] 0 [] cmd0
  have hfil : t.filter (fun m => m.role.isSystem) = [] := by
    rw [List.filter_eq_nil_iff]
    intro m hm
    have h2 := hs m hm
    cases hr : m.role
    · exact absurd hr h2
    · simp [Role.isSystem, hr]
    · simp [Role.isSystem, hr]
  constructor
  · simp [run, ht]
  · simp [run, ht, List.filter_append, hfil, Role.isSystem]
    intro a ha
    have h2 := hs a ha
    cases hr : a.role
    · exact absurd hr h2
    · simp [hr]
    · simp [hr]

/-- Witness for C9, on a concrete session and an empty run. -/
theorem c9_single_system_message_first_witness :
    (run ⟨[⟨.system, system_prompt_text "Linux" "/bin/bash" "2024.1" "/usr/bin/yt-dlp"⟩]⟩
        [] [] "req").conv.msgs.head?
      = some ⟨.system, system_prompt_text "Linux" "/bin/bash" "2024.1" "/usr/bin/yt-dlp"⟩ ∧
    ((run ⟨[⟨.system, system_prompt_text "Linux" "/bin/bash" "2024.1" "/usr/bin/yt-dlp"⟩]⟩
        [] [] "req").conv.msgs.filter (fun m => m.role.isSystem)).length = 1 :=
  c9_single_system_message_first "/usr/bin/yt-dlp" "2024.1" "Linux" "/bin/bash" "req" [] []
    ⟨[⟨.system, system_prompt_text "Linux" "/bin/bash" "2024.1" "/usr/bin/yt-dlp"⟩]⟩ rfl

/-- Claim C10: a parsed reply whose command is non-empty but consists
only of whitespace does not take the refusal branch: with a closed input
oracle the run still prompts once and displays the command (ending in
EOF, not refusal), and with a confirming input the command is handed to
the executor exactly as offered. -/
theorem c10_whitespace_command_offered (c : Conv) (raw input0 cmd : String)
    (fields : List (String × JValue)) (e e' : JValue)
    (outs : List ModelOutput) (ins : List String)
    (execs : List JValue) (prompts : Nat) (printed : List String)
    (he : jlookup fields "explanation" = some e)
    (hje : joinExplanation e = .ok e')
    (hc : jlookup fields "command" = some (.jstr cmd))
    (hcne : cmd ≠ "") (hws : cmd.data.all Char.isWhitespace = true) :
    (runLoop c (⟨raw, some (.jobj fields)⟩ :: outs) [] execs prompts printed input0).outcome
      = .inputEOF
    ∧ (runLoop c (⟨raw, some (.jobj fields)⟩ :: outs) [] execs prompts printed input0).prompts
      = prompts + 1
    ∧ ("\n\t" ++ cmd ++ "\n") ∈
        (runLoop c (⟨raw, some (.jobj fields)⟩ :: outs) [] execs prompts printed input0).printed
    ∧ (runLoop c (⟨raw, some (.jobj fields)⟩ :: outs) ("Y" :: ins)
        execs prompts printed input0).execs = execs ++ [JValue.jstr cmd] := by
  have hch := chat_ok c input0 raw fields e e' (.jstr cmd) he hc hje
  have hY : pyUpper "Y" = "Y" := rfl
  refine ⟨?_, ?_, ?_, ?_⟩ <;> simp [runLoop, hch, pyEqEmptyStr, hcne, hY, pyStr]

/-- Witness for C10, with the single-space command " ". -/
theorem c10_whitespace_command_offered_witness :
    (runLoop ⟨[]⟩ [⟨"R", some (.jobj [("explanation", .jstr "E"), ("command", .jstr " ")])⟩]
        [] [] 0 [] "req").outcome = .inputEOF ∧
    (runLoop ⟨[]⟩ [⟨"R", some (.jobj [("explanation", .jstr "E"), ("command", .jstr " ")])⟩]
        [] [] 0 [] "req").prompts = 1 ∧
    ("\n\t" ++ " " ++ "\n") ∈
      (runLoop ⟨[]⟩ [⟨"R", some (.jobj [("explanation", .jstr "E"), ("command", .jstr " ")])⟩]
        [] [] 0 [] "req").printed ∧
    (runLoop ⟨[]⟩ [⟨"R", some (.jobj [("explanation", .jstr "E"), ("command", .jstr " ")])⟩]
        ["Y"] [] 0 [] "req").execs = [JValue.jstr " "] := by
  have h := c10_whitespace_command_offered ⟨[]⟩ "R" "req" " "
    [("explanation", .jstr "E"), ("command", .jstr " ")]
    (.jstr "E") (.jstr "E") [] [] [] 0 []
    (by rfl) (by rfl) (by rfl) (by decide) (by rfl)
  simpa using h

end Ytdlpllm
